import Mathlib

/-!
Verification of the KELAH Agrovet front-end scripts.

The development shallowly embeds the interactive layer of the site:
the configuration record (src/js/config.js), the rate-limiting and
formatting utilities (src/js/utils.js), the animation controllers
(the unnamed animations file) and the application controller
(KelahApp in src/js/config.js).  Timer-based behaviour (debounce,
throttle, notification removal) is modelled by explicit event lists
carrying millisecond timestamps; DOM references that may be absent are
modelled as Option values, and a JavaScript TypeError on a null
dereference is modelled as Except.error.
-/

namespace Kelah

/-! ## Configuration (src/js/config.js, CONFIG) -/

structure Business where
  name : String
  tagline : String
  phone : String
  whatsapp : String
  email : String
  address : String

structure Breakpoints where
  mobile : Nat
  tablet : Nat
  desktop : Nat

structure Features where
  enableAnalytics : Bool
  enableChatbot : Bool
  enableNewsletterPopup : Bool

structure Performance where
  lazyLoadImages : Bool
  debounceDelay : Nat

structure Config where
  business : Business
  breakpoints : Breakpoints
  features : Features
  performance : Performance

def CONFIG : Config :=
  { business :=
      { name := "KELAH Agrovet"
      , tagline := "Your Trusted Partner in Animal Health & Farm Success"
      , phone := "+254722784947"
      , whatsapp := "254722784947"
      , email := "info@kelah-agrovet.co.ke"
      , address := "Main Street, Your Town, Kenya" }
  , breakpoints := { mobile := 768, tablet := 1024, desktop := 1440 }
  , features :=
      { enableAnalytics := false
      , enableChatbot := false
      , enableNewsletterPopup := false }
  , performance := { lazyLoadImages := true, debounceDelay := 150 } }

/-! ## Utils.debounce (src/js/utils.js lines 21-33)

A call sequence is a list of pairs (time in ms, argument).  The wrapper
owns one timeout handle: each call first lets a timeout that is already
due fire, then clears the handle and schedules the function at the call
time plus the wait.  After the last call the surviving timeout fires. -/

structure DebounceState (α : Type) where
  pending : Option (Nat × α)
  fired : List (Nat × α)
deriving Repr, DecidableEq

def debounceStep {α : Type} (wait : Nat) (s : DebounceState α)
    (c : Nat × α) : DebounceState α :=
  let s1 : DebounceState α :=
    match s.pending with
    | some p =>
        if p.1 ≤ c.1 then { pending := none, fired := s.fired ++ [p] }
        else { pending := none, fired := s.fired }
    | none => s
  { s1 with pending := some (c.1 + wait, c.2) }

def debounceRun {α : Type} (wait : Nat) (calls : List (Nat × α)) :
    List (Nat × α) :=
  let s := calls.foldl (debounceStep wait) { pending := none, fired := [] }
  match s.pending with
  | some p => s.fired ++ [p]
  | none => s.fired

def withinGaps {α : Type} (w : Nat) : List (Nat × α) → Bool
  | [] => true
  | [_] => true
  | a :: b :: rest =>
      (decide (a.1 ≤ b.1) && decide (b.1 < a.1 + w)) && withinGaps w (b :: rest)

def lastOf {α : Type} (c : Nat × α) : List (Nat × α) → Nat × α
  | [] => c
  | d :: ds => lastOf d ds

/-! ## Utils.throttle (src/js/utils.js lines 45-55)

The wrapper owns a flag that a timeout resets after the limit; the flag
is modelled by the time at which it resets.  A call finding the flag
clear (no reset time, or the reset already due) invokes the function
immediately and schedules the reset at call time plus the limit. -/

structure ThrottleState (α : Type) where
  resetAt : Option Nat
  fired : List (Nat × α)
deriving Repr, DecidableEq

def throttleStep {α : Type} (limit : Nat) (s : ThrottleState α)
    (c : Nat × α) : ThrottleState α :=
  let isOpen : Bool :=
    match s.resetAt with
    | none => true
    | some r => decide (r ≤ c.1)
  if isOpen then { resetAt := some (c.1 + limit), fired := s.fired ++ [c] }
  else s

def throttleState {α : Type} (limit : Nat) (calls : List (Nat × α)) :
    ThrottleState α :=
  calls.foldl (throttleStep limit) { resetAt := none, fired := [] }

def throttleRun {α : Type} (limit : Nat) (calls : List (Nat × α)) :
    List (Nat × α) :=
  (throttleState limit calls).fired

lemma debounce_pending_chain {α : Type} (w : Nat) :
    ∀ (cs : List (Nat × α)) (t : Nat) (a : α) (f : List (Nat × α)),
      withinGaps w ((t, a) :: cs) = true →
      cs.foldl (debounceStep w) { pending := some (t + w, a), fired := f } =
        { pending := some ((lastOf (t, a) cs).1 + w, (lastOf (t, a) cs).2),
          fired := f }
  | [], _, _, _, _ => rfl
  | (t2, a2) :: rest, t, a, f, h => by
      have hh : (t ≤ t2 ∧ t2 < t + w) ∧ withinGaps w ((t2, a2) :: rest) = true := by
        simpa [withinGaps, Bool.and_eq_true, decide_eq_true_eq] using h
      rw [List.foldl_cons]
      have hne : ¬ (t + w ≤ t2) := by omega
      have hstep : debounceStep w { pending := some (t + w, a), fired := f } (t2, a2)
          = { pending := some (t2 + w, a2), fired := f } := by
        simp [debounceStep, hne]
      rw [hstep]
      have htail := debounce_pending_chain w rest t2 a2 f hh.2
      simpa [lastOf] using htail

lemma throttle_closed_chain {α : Type} (limit R : Nat) :
    ∀ (mid : List (Nat × α)) (f : List (Nat × α)),
      (∀ x ∈ mid, x.1 < R) →
      mid.foldl (throttleStep limit) { resetAt := some R, fired := f } =
        { resetAt := some R, fired := f }
  | [], _, _ => rfl
  | (t, a) :: rest, f, h => by
      have h1 : t < R := h (t, a) (List.mem_cons_self _ _)
      have h2 : ∀ x ∈ rest, x.1 < R := fun x hx => h x (List.mem_cons_of_mem _ hx)
      rw [List.foldl_cons]
      have hstep : throttleStep limit { resetAt := some R, fired := f } (t, a)
          = { resetAt := some R, fired := f } := by
        simp [throttleStep, Nat.not_le.mpr h1]
      rw [hstep]
      exact throttle_closed_chain limit R rest f h2

/-- C1: for every wait time w, when the debounced wrapper is called N ≥ 1
times with consecutive calls less than w ms apart, the wrapped function is
invoked exactly once, at the time of the last call plus w, with the last
call's argument; no earlier call's scheduled invocation survives. -/
theorem debounce_single_invocation {α : Type} (w : Nat) (c : Nat × α)
    (cs : List (Nat × α)) (h : withinGaps w (c :: cs) = true) :
    debounceRun w (c :: cs) = [((lastOf c cs).1 + w, (lastOf c cs).2)] := by
  obtain ⟨t, a⟩ := c
  have hstep : debounceStep w { pending := none, fired := [] } (t, a)
      = { pending := some (t + w, a), fired := [] } := by
    simp [debounceStep]
  unfold debounceRun
  rw [List.foldl_cons, hstep, debounce_pending_chain w cs t a [] h]
  rfl

/-- Witness for C1 at wait 150 and calls at 0, 100, 200 ms. -/
theorem debounce_single_invocation_witness :
    withinGaps 150 [((0 : Nat), (1 : Nat)), (100, 2), (200, 3)] = true ∧
    debounceRun 150 [((0 : Nat), (1 : Nat)), (100, 2), (200, 3)] = [(350, 3)] :=
  ⟨by decide,
    (debounce_single_invocation 150 (0, 1) [(100, 2), (200, 3)] (by decide)).trans
      (by decide)⟩

/-- C2: the throttled wrapper with limit l, called N ≥ 1 times with every
later call strictly less than l ms after the first, invokes the function
exactly once, immediately at the first call with its argument; a further
call at or after first-call-time + l fires again immediately and restarts
the window (the reset timer moves to that call's time plus l). -/
theorem throttle_first_call_wins {α : Type} (limit : Nat) (c1 c2 : Nat × α)
    (mid : List (Nat × α)) (h : ∀ x ∈ mid, x.1 < c1.1 + limit) :
    throttleRun limit (c1 :: mid) = [c1] ∧
    (c1.1 + limit ≤ c2.1 →
      throttleRun limit (c1 :: (mid ++ [c2])) = [c1, c2] ∧
      (throttleState limit (c1 :: (mid ++ [c2]))).resetAt = some (c2.1 + limit)) := by
  obtain ⟨t1, a1⟩ := c1
  have hfirst : throttleStep limit { resetAt := none, fired := [] } (t1, a1)
      = { resetAt := some (t1 + limit), fired := [(t1, a1)] } := by
    simp [throttleStep]
  constructor
  · unfold throttleRun throttleState
    rw [List.foldl_cons, hfirst, throttle_closed_chain limit (t1 + limit) mid [(t1, a1)] h]
  · intro hc2
    have hstate : throttleState limit ((t1, a1) :: (mid ++ [c2]))
        = { resetAt := some (c2.1 + limit), fired := [(t1, a1), c2] } := by
      unfold throttleState
      rw [List.foldl_cons, hfirst, List.foldl_append,
        throttle_closed_chain limit (t1 + limit) mid [(t1, a1)] h]
      simp [throttleStep, hc2]
    exact ⟨by unfold throttleRun; rw [hstate], by rw [hstate]⟩

/-- Witness for C2 at limit 150, calls at 0, 50, 100 ms and a late call at 150 ms. -/
theorem throttle_first_call_wins_witness :
    throttleRun 150 [((0 : Nat), (1 : Nat)), (50, 2), (100, 3)] = [(0, 1)] ∧
    throttleRun 150 [((0 : Nat), (1 : Nat)), (50, 2), (100, 3), (150, 4)]
      = [(0, 1), (150, 4)] ∧
    (throttleState 150 [((0 : Nat), (1 : Nat)), (50, 2), (100, 3), (150, 4)]).resetAt
      = some 300 :=
  have h := throttle_first_call_wins 150 (0, 1) (150, 4) [(50, 2), (100, 3)]
    (by decide)
  ⟨h.1, (h.2 (by decide)).1, ((h.2 (by decide)).2).trans (by decide)⟩

/-! ## Animations.initScrollReveal (animations file, lines 36-70)

Each watched element carries its inline style and whether the observer is
still watching it.  The initial wiring sets the hidden style and observes
the element; the observer callback, on an intersecting entry, sets the
revealed style and unobserves.  An element's event history is the list of
isIntersecting flags of the entries delivered for it; after unobserve the
observer delivers no further entries, which the observed flag models.
The reveals field counts reveal transitions. -/

structure RevealElem where
  opacity : String
  transform : String
  transition : String
  observed : Bool
  reveals : Nat
deriving Repr, DecidableEq

def initialRevealState : RevealElem :=
  { opacity := "0"
  , transform := "translateY(30px)"
  , transition := "opacity 0.6s ease-out, transform 0.6s ease-out"
  , observed := true
  , reveals := 0 }

def initScrollReveal (els : List Unit) : List RevealElem :=
  els.map fun _ => initialRevealState

def revealStep (e : RevealElem) (isIntersecting : Bool) : RevealElem :=
  if e.observed && isIntersecting then
    { e with opacity := "1", transform := "translateY(0)"
           , observed := false, reveals := e.reveals + 1 }
  else e

def revealRun (events : List Bool) : RevealElem :=
  events.foldl revealStep initialRevealState

def revealedState : RevealElem :=
  { opacity := "1"
  , transform := "translateY(0)"
  , transition := "opacity 0.6s ease-out, transform 0.6s ease-out"
  , observed := false
  , reveals := 1 }

lemma reveal_inert (evs : List Bool) :
    ∀ e : RevealElem, e.observed = false → evs.foldl revealStep e = e := by
  induction evs with
  | nil => intro e _; rfl
  | cons b rest ih =>
      intro e he
      rw [List.foldl_cons]
      have hstep : revealStep e b = e := by simp [revealStep, he]
      rw [hstep]
      exact ih e he

lemma reveal_all_false :
    ∀ evs : List Bool, (∀ b ∈ evs, b = false) →
      evs.foldl revealStep initialRevealState = initialRevealState := by
  intro evs
  induction evs with
  | nil => intro _; rfl
  | cons b rest ih =>
      intro h
      have hb : b = false := h b (List.mem_cons_self _ _)
      rw [List.foldl_cons]
      have hstep : revealStep initialRevealState b = initialRevealState := by
        simp [revealStep, hb]
      rw [hstep]
      exact ih fun x hx => h x (List.mem_cons_of_mem _ hx)

lemma reveal_first_true :
    ∀ evs : List Bool, true ∈ evs →
      evs.foldl revealStep initialRevealState = revealedState := by
  intro evs
  induction evs with
  | nil => intro h; cases h
  | cons b rest ih =>
      intro h
      rw [List.foldl_cons]
      cases b with
      | true =>
          have hstep : revealStep initialRevealState true = revealedState := by
            simp [revealStep, initialRevealState, revealedState]
          rw [hstep]
          exact reveal_inert rest revealedState rfl
      | false =>
          have hstep : revealStep initialRevealState false = initialRevealState := by
            simp [revealStep]
          rw [hstep]
          have hmem : true ∈ rest := by
            cases List.mem_cons.mp h with
            | inl hh => cases hh
            | inr hh => exact hh
          exact ih hmem

/-- C3: a watched element that never reports intersection stays in the
hidden state (opacity 0, translated down 30px, still observed); as soon
as one delivered entry intersects, the element reaches the revealed state
(opacity 1, no translation), is unobserved, and the reveal transition has
happened exactly once — later entries change nothing. -/
theorem scrollReveal_one_shot (events : List Bool) :
    initialRevealState.opacity = "0" ∧
    initialRevealState.transform = "translateY(30px)" ∧
    ((∀ b ∈ events, b = false) → revealRun events = initialRevealState) ∧
    (true ∈ events → revealRun events = revealedState) :=
  ⟨rfl, rfl, reveal_all_false events, reveal_first_true events⟩

/-- Witness for C3 on a quiet history and on a history whose second entry
intersects. -/
theorem scrollReveal_one_shot_witness :
    revealRun [false, false] = initialRevealState ∧
    revealRun [false, true, false, true] = revealedState :=
  ⟨(scrollReveal_one_shot [false, false]).2.2.1 (by decide),
    (scrollReveal_one_shot [false, true, false, true]).2.2.2 (by decide)⟩

/-! ## KelahApp mobile menu (src/js/config.js lines 264-275 and 313-317)

The DOM references cached at startup may be null; a null dereference in
toggleMobileMenu is modelled as Except.error (in the browser it raises a
TypeError).  classToggle models classList.toggle. -/

def classToggle (classes : List String) (c : String) : List String :=
  if c ∈ classes then classes.filter (fun x => x ≠ c) else classes ++ [c]

structure MenuUI where
  mobileMenuOpen : Bool
  headerActions : Option (List String)
  menuToggle : Option (List String)
  bodyOverflow : String
deriving Repr, DecidableEq

def toggleMobileMenu (s : MenuUI) : Except String MenuUI :=
  let nowOpen := !s.mobileMenuOpen
  match s.headerActions, s.menuToggle with
  | some ha, some mt =>
      Except.ok
        { mobileMenuOpen := nowOpen
        , headerActions := some (classToggle ha "active")
        , menuToggle := some (classToggle mt "active")
        , bodyOverflow := if nowOpen then "hidden" else "auto" }
  | none, _ => Except.error "TypeError: DOM.headerActions is null"
  | some _, none => Except.error "TypeError: DOM.menuToggle is null"

def handleResize (width : Nat) (s : MenuUI) : Except String MenuUI :=
  if decide (CONFIG.breakpoints.mobile ≤ width) && s.mobileMenuOpen then
    toggleMobileMenu s
  else Except.ok s

/-- C4: with both menu elements present the menu is a two-state machine:
from closed, one toggle yields open with body overflow hidden; a second
toggle yields closed with overflow auto; a resize to width at or above the
mobile breakpoint while open forces the closed state; a resize while
closed, or below the breakpoint, changes nothing. -/
theorem mobileMenu_two_state (ha mt : List String) (ov : String) (w : Nat) :
    toggleMobileMenu ⟨false, some ha, some mt, ov⟩ =
      Except.ok ⟨true, some (classToggle ha "active"),
        some (classToggle mt "active"), "hidden"⟩ ∧
    toggleMobileMenu ⟨true, some (classToggle ha "active"),
        some (classToggle mt "active"), "hidden"⟩ =
      Except.ok ⟨false, some (classToggle (classToggle ha "active") "active"),
        some (classToggle (classToggle mt "active") "active"), "auto"⟩ ∧
    (CONFIG.breakpoints.mobile ≤ w →
      handleResize w ⟨true, some (classToggle ha "active"),
          some (classToggle mt "active"), "hidden"⟩ =
        Except.ok ⟨false, some (classToggle (classToggle ha "active") "active"),
          some (classToggle (classToggle mt "active") "active"), "auto"⟩) ∧
    (∀ s : MenuUI, s.mobileMenuOpen = false → handleResize w s = Except.ok s) ∧
    (∀ s : MenuUI, w < CONFIG.breakpoints.mobile → handleResize w s = Except.ok s) := by
  refine ⟨rfl, rfl, ?_, ?_, ?_⟩
  · intro hw
    simp [handleResize, hw, toggleMobileMenu]
  · intro s hs
    simp [handleResize, hs]
  · intro s hw
    simp [handleResize, Nat.not_le.mpr hw]

/-- Witness for C4 with empty class lists, width 800 above and 500 below
the 768px breakpoint. -/
theorem mobileMenu_two_state_witness :
    toggleMobileMenu ⟨false, some [], some [], ""⟩ =
      Except.ok ⟨true, some ["active"], some ["active"], "hidden"⟩ ∧
    handleResize 800 ⟨true, some ["active"], some ["active"], "hidden"⟩ =
      Except.ok ⟨false, some [], some [], "auto"⟩ ∧
    handleResize 800 ⟨false, some [], some [], ""⟩ =
      Except.ok ⟨false, some [], some [], ""⟩ ∧
    handleResize 500 ⟨true, some ["active"], some ["active"], "hidden"⟩ =
      Except.ok ⟨true, some ["active"], some ["active"], "hidden"⟩ := by
  have h := mobileMenu_two_state [] [] "" 800
  have h500 := mobileMenu_two_state [] [] "" 500
  refine ⟨?_, ?_, ?_, ?_⟩
  · simpa [classToggle] using h.1
  · simpa [classToggle] using h.2.2.1 (by decide)
  · exact h.2.2.2.1 ⟨false, some [], some [], ""⟩ rfl
  · exact h500.2.2.2.2 ⟨true, some ["active"], some ["active"], "hidden"⟩ (by decide)

/-! ## Guarded wiring (animations file lines 116-118 and 105-108)

initHeaderScroll returns early when #header is absent, so no scroll
handler is registered; modelled as an Option handler.  initProductStagger
styles the found cards and observes #products only when it exists; the
second component is the list of observed targets. -/

def headerScrollBoxShadow (currentScroll : Nat) : String :=
  if 50 < currentScroll then "0 2px 10px rgba(0, 0, 0, 0.1)"
  else "0 1px 2px rgba(0, 0, 0, 0.05)"

def initHeaderScroll (header : Option Unit) : Option (Nat → String) :=
  match header with
  | none => none
  | some _ => some headerScrollBoxShadow

structure StyledElem where
  opacity : String
  transform : String
  transition : String
deriving Repr, DecidableEq

def initProductStagger (productCards : List StyledElem)
    (productsSection : Option Unit) : List StyledElem × List Unit :=
  (productCards.map fun card =>
      { card with opacity := "0"
                , transform := "translateY(40px) scale(0.95)"
                , transition := "all 0.6s cubic-bezier(0.4, 0, 0.2, 1)" }
  , match productsSection with
    | some e => [e]
    | none => [])

/-- C6 counterexample: invoking the menu toggle while DOM.headerActions is
absent does not silently no-op, it raises a TypeError. -/
theorem toggle_null_deref_ce :
    toggleMobileMenu ⟨false, none, none, ""⟩ =
      Except.error "TypeError: DOM.headerActions is null" := rfl

/-- C6 amended: the guarded features are silent no-ops on absent elements —
reveal wiring over zero found elements does nothing, header-shadow wiring
registers no handler without #header, product stagger observes nothing
without #products, and a resize while the menu is closed leaves the state
untouched — but toggleMobileMenu dereferences DOM.headerActions and
DOM.menuToggle without a null check and throws when either is absent. -/
theorem missing_element_behaviour (w : Nat) (cards : List StyledElem)
    (s : MenuUI) :
    (s.mobileMenuOpen = false → handleResize w s = Except.ok s) ∧
    initScrollReveal [] = [] ∧
    initHeaderScroll none = none ∧
    (initProductStagger cards none).2 = [] ∧
    (s.headerActions = none → ∃ e, toggleMobileMenu s = Except.error e) ∧
    (s.menuToggle = none → ∃ e, toggleMobileMenu s = Except.error e) := by
  refine ⟨?_, rfl, rfl, rfl, ?_, ?_⟩
  · intro hs
    simp [handleResize, hs]
  · intro hha
    exact ⟨"TypeError: DOM.headerActions is null", by simp [toggleMobileMenu, hha]⟩
  · intro hmt
    cases hha : s.headerActions with
    | none =>
        exact ⟨"TypeError: DOM.headerActions is null", by simp [toggleMobileMenu, hha]⟩
    | some ha =>
        exact ⟨"TypeError: DOM.menuToggle is null", by simp [toggleMobileMenu, hha, hmt]⟩

/-- Witness for the amended C6 at concrete absent-element states. -/
theorem missing_element_behaviour_witness :
    handleResize 1000 ⟨false, none, none, ""⟩ = Except.ok ⟨false, none, none, ""⟩ ∧
    initScrollReveal [] = [] ∧
    initHeaderScroll none = none ∧
    (initProductStagger [] none).2 = [] ∧
    (∃ e, toggleMobileMenu ⟨false, none, none, ""⟩ = Except.error e) ∧
    (∃ e, toggleMobileMenu ⟨false, some [], none, ""⟩ = Except.error e) :=
  have h1 := missing_element_behaviour 1000 [] ⟨false, none, none, ""⟩
  have h2 := missing_element_behaviour 1000 [] ⟨false, some [], none, ""⟩
  ⟨h1.1 rfl, h1.2.1, h1.2.2.1, h1.2.2.2.1, h1.2.2.2.2.1 rfl, h2.2.2.2.2.2 rfl⟩

/-! ## CONFIG.getWhatsAppLink (src/js/config.js lines 101-105)

encodeURIComponent leaves ASCII letters, digits and the nine marks
unchanged and percent-encodes every other character byte-wise in UTF-8
with uppercase hexadecimal, as ECMAScript specifies. -/

def hexDigit (n : Nat) : Char :=
  if n < 10 then Char.ofNat (48 + n) else Char.ofNat (55 + n)

def percentByte (b : Nat) : List Char :=
  ['%', hexDigit (b / 16), hexDigit (b % 16)]

def utf8Bytes (n : Nat) : List Nat :=
  if n < 128 then [n]
  else if n < 2048 then [192 + n / 64, 128 + n % 64]
  else if n < 65536 then [224 + n / 4096, 128 + (n / 64) % 64, 128 + n % 64]
  else [240 + n / 262144, 128 + (n / 4096) % 64, 128 + (n / 64) % 64, 128 + n % 64]

def uriUnreserved (c : Char) : Bool :=
  c.isAlphanum || ['-', '_', '.', '!', '~', '*', '\x27', '(', ')'].contains c

def encodeURIComponent (s : String) : String :=
  String.mk ((s.toList.map fun c =>
    if uriUnreserved c then [c]
    else ((utf8Bytes c.toNat).map percentByte).flatten).flatten)

def defaultWhatsAppMessage : String :=
  "Hello KELAH Agrovet, I\x27d like to inquire about your services."

def Config.getWhatsAppLink (c : Config) (message : String := "") : String :=
  "https://wa.me/" ++ c.business.whatsapp ++ "?text=" ++
    encodeURIComponent (if message = "" then defaultWhatsAppMessage else message)

def Config.getPhoneLink (c : Config) : String :=
  "tel:" ++ c.business.phone

/-- C5 counterexample: the empty message is explicitly supplied yet the
link does not carry its percent-encoding (the empty text); the builder
falls back to the default inquiry message, because the source tests the
message for JavaScript truthiness rather than for presence. -/
theorem getWhatsAppLink_empty_message_ce :
    CONFIG.getWhatsAppLink "" ≠
      "https://wa.me/" ++ CONFIG.business.whatsapp ++ "?text=" ++
        encodeURIComponent "" := by decide

/-- C5 amended: with no message argument the builder returns the URI made
of exactly the configured handle and the percent-encoded default inquiry
message; every nonempty supplied message replaces the default, while a
supplied empty message falls back to it. -/
theorem getWhatsAppLink_spec (m : String) :
    CONFIG.getWhatsAppLink =
      "https://wa.me/" ++ CONFIG.business.whatsapp ++ "?text=" ++
        encodeURIComponent defaultWhatsAppMessage ∧
    (m ≠ "" →
      CONFIG.getWhatsAppLink m =
        "https://wa.me/" ++ CONFIG.business.whatsapp ++ "?text=" ++
          encodeURIComponent m) := by
  constructor
  · rfl
  · intro hm
    simp [Config.getWhatsAppLink, hm]

/-- Witness for the amended C5 at the message "Need 5 day-old chicks". -/
theorem getWhatsAppLink_spec_witness :
    CONFIG.getWhatsAppLink "Need 5 day-old chicks" =
      "https://wa.me/254722784947?text=Need%205%20day-old%20chicks" :=
  ((getWhatsAppLink_spec "Need 5 day-old chicks").2 (by decide)).trans (by decide)

/-! ## showNotification (src/js/config.js lines 384-409)

The document is the list of live notification nodes.  showNotification
appends one node; 3000 ms later the exit animation starts and 300 ms
after that the node is removed, so the node is present exactly while the
elapsed time is below 3300 ms. -/

structure Notification where
  className : String
  textContent : String
  background : String
deriving Repr, DecidableEq

def notificationBackground (ty : String) : String :=
  if ty = "success" then "#27AE60" else "#E74C3C"

def mkNotification (message ty : String) : Notification :=
  { className := "notification notification--" ++ ty
  , textContent := message
  , background := notificationBackground ty }

def notificationDisplayMs : Nat := 3000

def notificationExitMs : Nat := 300

def showNotification (doc : List Notification) (message : String)
    (ty : String := "info") : List Notification :=
  doc ++ [mkNotification message ty]

def docAfterShow (doc : List Notification) (message ty : String)
    (elapsed : Nat) : List Notification :=
  if elapsed < notificationDisplayMs + notificationExitMs then
    showNotification doc message ty
  else doc

/-- C7: each call appends exactly one node to the document, the node
carries exactly the given message text, severity success maps to the
fixed green, and once 3000 + 300 ms have elapsed the node is gone and the
document is as before the call. -/
theorem showNotification_lifecycle (doc : List Notification)
    (message ty : String) (elapsed : Nat) :
    (showNotification doc message ty).length = doc.length + 1 ∧
    showNotification doc message ty = doc ++ [mkNotification message ty] ∧
    (mkNotification message ty).textContent = message ∧
    (mkNotification message "success").background = "#27AE60" ∧
    (elapsed < 3300 → docAfterShow doc message ty elapsed = showNotification doc message ty) ∧
    (3300 ≤ elapsed → docAfterShow doc message ty elapsed = doc) := by
  refine ⟨by simp [showNotification], rfl, rfl, rfl, ?_, ?_⟩
  · intro h
    simp [docAfterShow, notificationDisplayMs, notificationExitMs, h]
  · intro h
    simp [docAfterShow, notificationDisplayMs, notificationExitMs, Nat.not_lt.mpr h]

/-- Witness for C7 at an empty document, message Saved, severity success,
queried during display and after the full lifetime. -/
theorem showNotification_lifecycle_witness :
    docAfterShow [] "Saved" "success" 100 = showNotification [] "Saved" "success" ∧
    docAfterShow [] "Saved" "success" 3300 = [] :=
  ⟨(showNotification_lifecycle [] "Saved" "success" 100).2.2.2.2.1 (by decide),
    (showNotification_lifecycle [] "Saved" "success" 3300).2.2.2.2.2 (by decide)⟩

/-- C9: only success is distinguished — the background is the success
green exactly when the severity is success, and every other severity,
error, warning and info included, gets the same red. -/
theorem notification_color_mapping (message ty : String) :
    ((mkNotification message ty).background = "#27AE60" ↔ ty = "success") ∧
    (ty ≠ "success" → (mkNotification message ty).background = "#E74C3C") := by
  by_cases h : ty = "success"
  · constructor
    · simp [mkNotification, notificationBackground, h]
    · intro hne
      exact absurd h hne
  · constructor
    · simp only [mkNotification, notificationBackground, if_neg h]
      constructor
      · intro hbg
        exact absurd hbg (by decide)
      · intro hs
        exact absurd hs h
    · intro _
      simp [mkNotification, notificationBackground, h]

/-- Witness for C9 at severity error: the background is the shared red. -/
theorem notification_color_mapping_witness :
    (mkNotification "msg" "error").background = "#E74C3C" :=
  (notification_color_mapping "msg" "error").2 (by decide)

/-! ## KelahApp.init and Utils.logError (src/js/config.js lines 175-195,
src/js/utils.js lines 201-208)

The bodies of the initialization steps manipulate the DOM, so the state
they transform is kept abstract; each step either returns the new state
or throws.  init runs the steps of the single try block in source order —
element caching, listener wiring, animation setup, contact-link update,
optional lazy-image setup, removal of the loading class — and the one
module-level catch logs the failure through Utils.logError and returns
normally.  The console is the list of logged (text, error) pairs. -/

structure InitSteps (σ : Type) where
  cacheDOMElements : σ → Except String σ
  initEventListeners : σ → Except String σ
  animationsInit : σ → Except String σ
  updateContactLinks : σ → Except String σ
  lazyLoadImages : σ → Except String σ
  removeLoadingClass : σ → Except String σ

def logError (console : List (String × Option String)) (message : String)
    (error : Option String := none) : List (String × Option String) :=
  console ++ [("[KELAH Error] " ++ message, error)]

def initBody {σ : Type} (st : InitSteps σ) (lazyEnabled : Bool) (s : σ) :
    Except String σ :=
  match st.cacheDOMElements s with
  | Except.error e => Except.error e
  | Except.ok s1 =>
  match st.initEventListeners s1 with
  | Except.error e => Except.error e
  | Except.ok s2 =>
  match st.animationsInit s2 with
  | Except.error e => Except.error e
  | Except.ok s3 =>
  match st.updateContactLinks s3 with
  | Except.error e => Except.error e
  | Except.ok s4 =>
  match (if lazyEnabled then st.lazyLoadImages s4 else Except.ok s4) with
  | Except.error e => Except.error e
  | Except.ok s5 => st.removeLoadingClass s5

def KelahApp.init {σ : Type} (st : InitSteps σ) (lazyEnabled : Bool) (s : σ)
    (console : List (String × Option String)) :
    σ × List (String × Option String) :=
  match initBody st lazyEnabled s with
  | Except.ok s2 => (s2, console)
  | Except.error e => (s, logError console "Initialization failed" (some e))

/-- C8: a throw inside the single try block of init is caught there,
logged through Utils.logError with the context message, and init returns
normally instead of propagating it; and a throw in an early step makes
the whole block fail with that error, so the steps after the throwing
one never run — as the second conjunct shows, a failure in the animation
setup decides the outcome whatever the later steps would do. -/
theorem init_catches_and_skips {σ : Type} (st : InitSteps σ)
    (lazyEnabled : Bool) (s : σ) (console : List (String × Option String)) :
    (∀ e, initBody st lazyEnabled s = Except.error e →
      KelahApp.init st lazyEnabled s console =
        (s, console ++ [("[KELAH Error] Initialization failed", some e)])) ∧
    (∀ s1 s2 e, st.cacheDOMElements s = Except.ok s1 →
      st.initEventListeners s1 = Except.ok s2 →
      st.animationsInit s2 = Except.error e →
      initBody st lazyEnabled s = Except.error e) := by
  constructor
  · intro e he
    simp [KelahApp.init, he, logError]
  · intro s1 s2 e h1 h2 h3
    simp [initBody, h1, h2, h3]

def sampleInitSteps : InitSteps Nat :=
  { cacheDOMElements := fun n => Except.ok (n + 1)
  , initEventListeners := fun n => Except.ok (n + 1)
  , animationsInit := fun _ => Except.error "boom"
  , updateContactLinks := fun n => Except.ok (n + 100)
  , lazyLoadImages := fun n => Except.ok (n + 1000)
  , removeLoadingClass := fun n => Except.ok n }

/-- Witness for C8: with the animation step throwing, init returns
normally with the logged context message and the later steps never
contribute. -/
theorem init_catches_and_skips_witness :
    KelahApp.init sampleInitSteps true 0 [] =
      (0, [("[KELAH Error] Initialization failed", some "boom")]) :=
  (init_catches_and_skips sampleInitSteps true 0 []).1 "boom"
    ((init_catches_and_skips sampleInitSteps true 0 []).2 1 2 "boom" rfl rfl rfl)

/-! ## Utils.formatPhone (src/js/utils.js lines 160-170) -/

def phoneDigits (phone : String) : List Char :=
  phone.toList.filter Char.isDigit

def formatPhone (phone : String) : String :=
  let digits := phoneDigits phone
  if digits.length = 12 then
    "+" ++ String.mk (digits.take 3) ++ " " ++ String.mk ((digits.drop 3).take 3)
      ++ " " ++ String.mk ((digits.drop 6).take 3) ++ " " ++ String.mk (digits.drop 9)
  else phone

/-- C10: stripping non-digits, an input with exactly 12 digits is
re-grouped as a leading plus and four space-separated groups of three
digits whose concatenation is the stripped digit list; any other digit
count returns the input unchanged. -/
theorem formatPhone_spec (phone : String) :
    ((phoneDigits phone).length ≠ 12 → formatPhone phone = phone) ∧
    ((phoneDigits phone).length = 12 →
      formatPhone phone =
        "+" ++ String.mk ((phoneDigits phone).take 3) ++ " " ++
          String.mk (((phoneDigits phone).drop 3).take 3) ++ " " ++
          String.mk (((phoneDigits phone).drop 6).take 3) ++ " " ++
          String.mk ((phoneDigits phone).drop 9) ∧
      ((phoneDigits phone).take 3).length = 3 ∧
      (((phoneDigits phone).drop 3).take 3).length = 3 ∧
      (((phoneDigits phone).drop 6).take 3).length = 3 ∧
      ((phoneDigits phone).drop 9).length = 3 ∧
      (phoneDigits phone).take 3 ++ ((phoneDigits phone).drop 3).take 3 ++
          ((phoneDigits phone).drop 6).take 3 ++ (phoneDigits phone).drop 9 =
        phoneDigits phone) := by
  constructor
  · intro h
    simp [formatPhone, h]
  · intro h
    refine ⟨by simp [formatPhone, h], ?_, ?_, ?_, ?_, ?_⟩
    · simp [List.length_take, h]
    · simp [List.length_take, List.length_drop, h]
    · simp [List.length_take, List.length_drop, h]
    · simp [List.length_drop, h]
    · rw [List.append_assoc, List.append_assoc]
      have h9 : (phoneDigits phone).drop 9 = ((phoneDigits phone).drop 6).drop 3 := by
        rw [List.drop_drop]
      have h6 : (phoneDigits phone).drop 6 = ((phoneDigits phone).drop 3).drop 3 := by
        rw [List.drop_drop]
      rw [h9, List.take_append_drop, h6, List.take_append_drop, List.take_append_drop]

/-- Witness for C10 at a 12-digit input and at a 10-digit input. -/
theorem formatPhone_spec_witness :
    formatPhone "254722784947" = "+254 722 784 947" ∧
    formatPhone "0722 784947" = "0722 784947" :=
  ⟨(((formatPhone_spec "254722784947").2 (by decide)).1).trans (by decide),
    (formatPhone_spec "0722 784947").1 (by decide)⟩

end Kelah
